import Mathlib

/-
Verification of ft5x06-register-tool (src/ft5x06-register-tool.c), a
diagnostic utility that reads or writes one 8-bit register of an FT5x06
touch controller over I2C.

Shallow embedding: the I2C bus (the ioctl(fd, I2C_RDWR, ...) primitive) is
an oracle mapping a submitted message list to the ioctl return value and
the bytes the kernel deposits into the read buffer.  The program functions
ft5x06_i2c_read, ft5x06_i2c_write, ft5x06_write_reg and the post-parsing
part of main are translated directly; each returns, besides its C result,
the trace of transactions it submitted and the error codes it logged, so
that transaction counts and logging can be stated.
-/

/-- The I2C_M_RD flag from linux/i2c.h: marks a message as a read. -/
def I2C_M_RD : Nat := 1

/-- One struct i2c_msg: target address, flags, length, and the payload
bytes for a write message (a read message carries no payload; the kernel
fills its buffer, modelled by the bus oracle result). -/
structure i2c_msg where
  addr : Nat
  flags : Nat
  len : Nat
  buf : List Nat
deriving DecidableEq

/-- One I2C_RDWR submission: the ordered message list of a single atomic
multi-message ioctl call. -/
abbrev I2CTransaction := List i2c_msg

/-- The bus oracle: given the submitted message list, the ioctl return
value and the bytes written into the read buffer (empty when the
transaction has no read message or the driver supplies nothing). -/
def Bus := I2CTransaction → Int × List Nat

/-- Kernel copy-back into a caller buffer: the returned bytes overwrite
the front of the buffer, the rest keeps its previous (possibly
uninitialized) contents, and the buffer size never changes. -/
def listOverwrite (old new : List Nat) : List Nat :=
  new.take old.length ++ old.drop new.length

/-- C conversion of an int to uint8_t: reduction modulo 256 (for the
nonnegative ints that reach the conversions in main this is just the low
byte). -/
def uint8_ofInt (i : Int) : Nat := (i % 256).toNat

/-- Result of ft5x06_i2c_read: the ioctl return value, the read buffer
after the call, the submitted transactions, and the codes logged by the
ERR macro. -/
structure I2CReadResult where
  ret : Int
  rdbuf : List Nat
  trace : List I2CTransaction
  errs : List Int
deriving DecidableEq

/-- ft5x06_i2c_read (src lines 100-127): if wrlen > 0 submit one combined
transaction [write wrlen bytes, read rdlen bytes], else a lone read
message; log the code iff the ioctl result is negative. -/
def ft5x06_i2c_read (bus : Bus) (tsaddr : Nat) (wrbuf : List Nat)
    (wrlen : Nat) (rdbuf : List Nat) (rdlen : Nat) : I2CReadResult :=
  if wrlen > 0 then
    let msgs : I2CTransaction :=
      [⟨tsaddr, 0, wrlen, wrbuf⟩, ⟨tsaddr, I2C_M_RD, rdlen, []⟩]
    let r := bus msgs
    { ret := r.1, rdbuf := listOverwrite rdbuf r.2, trace := [msgs],
      errs := if r.1 < 0 then [r.1] else [] }
  else
    let msgs : I2CTransaction := [⟨tsaddr, I2C_M_RD, rdlen, []⟩]
    let r := bus msgs
    { ret := r.1, rdbuf := listOverwrite rdbuf r.2, trace := [msgs],
      errs := if r.1 < 0 then [r.1] else [] }

/-- Result of ft5x06_i2c_write: ioctl return value, submitted
transactions, logged error codes. -/
structure I2CWriteResult where
  ret : Int
  trace : List I2CTransaction
  errs : List Int
deriving DecidableEq

/-- ft5x06_i2c_write (src lines 129-145): submit a single one-message
write transaction; log the code iff the ioctl result is negative. -/
def ft5x06_i2c_write (bus : Bus) (tsaddr : Nat) (buf : List Nat)
    (len : Nat) : I2CWriteResult :=
  let msgs : I2CTransaction := [⟨tsaddr, 0, len, buf⟩]
  let r := bus msgs
  { ret := r.1, trace := [msgs], errs := if r.1 < 0 then [r.1] else [] }

/-- ft5x06_write_reg (src lines 147-155): write the two-byte buffer
[regnum, value]; regnum and value are the uint8_t parameter values
(callers convert their ints at the call boundary). -/
def ft5x06_write_reg (bus : Bus) (tsaddr : Nat) (regnum value : Nat) :
    I2CWriteResult :=
  ft5x06_i2c_write bus tsaddr [regnum, value] 2

/-- Lowercase hexadecimal digits of n, as printf %x renders them. -/
def hexStr (n : Nat) : String := String.mk (Nat.toDigits 16 n)

/-- printf %02x: lowercase hex, zero-padded on the left to a minimum
width of two digits (wider values print all their digits). -/
def hex2 (n : Nat) : String := if n < 16 then "0" ++ hexStr n else hexStr n

/-- The stdout lines main emits through the LOG macro, by content. -/
inductive LogLine where
  | couldNotOpen
  | couldNotSetSlaveAddr
  | bothReadWrite
  | noWriteAddress
  | noWriteValue
  | printed (s : String)
deriving DecidableEq

/-- Observable outcome of one invocation of main (after argument
parsing): process exit code, every transaction submitted to the bus, how
many times close(ts.fd) ran, the LOG lines, and the ERR error codes. -/
structure MainOutcome where
  exitCode : Int
  transactions : List I2CTransaction
  closeCount : Nat
  logs : List LogLine
  errs : List Int
deriving DecidableEq

/-- main (src lines 205-244) after argument parsing.  openRet is the fd
returned by open (negative on failure), bindRet the I2C_SLAVE_FORCE ioctl
result (nonzero on failure), tsaddr the bound target address, readaddr,
writeaddr, writevalue the parsed option ints (-1 when absent), rbuf0 the
uninitialized byte in rbuf.  Mirrors the source control flow: open check,
bind check, the three validation rejections (goto end), the read path,
the write path, then close at the end label and return 0. -/
def runMain (bus : Bus) (openRet bindRet : Int) (tsaddr : Nat)
    (readaddr writeaddr writevalue : Int) (rbuf0 : Nat) : MainOutcome :=
  if openRet < 0 then
    { exitCode := openRet, transactions := [], closeCount := 0,
      logs := [.couldNotOpen], errs := [] }
  else if bindRet ≠ 0 then
    { exitCode := -1, transactions := [], closeCount := 0,
      logs := [.couldNotSetSlaveAddr], errs := [] }
  else if 0 ≤ writeaddr ∧ 0 ≤ readaddr then
    { exitCode := 0, transactions := [], closeCount := 1,
      logs := [.bothReadWrite], errs := [] }
  else if writeaddr ≤ 0 ∧ 0 ≤ writevalue then
    { exitCode := 0, transactions := [], closeCount := 1,
      logs := [.noWriteAddress], errs := [] }
  else if 0 ≤ writeaddr ∧ writevalue ≤ 0 then
    { exitCode := 0, transactions := [], closeCount := 1,
      logs := [.noWriteValue], errs := [] }
  else if 0 ≤ readaddr then
    let wbuf := uint8_ofInt readaddr
    let r := ft5x06_i2c_read bus tsaddr [wbuf] 1 [rbuf0] 1
    { exitCode := 0, transactions := r.trace, closeCount := 1,
      logs := [.printed (hex2 (r.rdbuf.headD 0))], errs := r.errs }
  else if 0 ≤ writeaddr then
    let r := ft5x06_write_reg bus tsaddr (uint8_ofInt writeaddr)
      (uint8_ofInt writevalue)
    { exitCode := 0, transactions := r.trace, closeCount := 1,
      logs := [.printed (hex2 writeaddr.toNat ++ " = " ++
        hex2 writevalue.toNat)], errs := r.errs }
  else
    { exitCode := 0, transactions := [], closeCount := 1,
      logs := [], errs := [] }

/-- A bus oracle that ignores the submitted messages and always answers
with the given ioctl result and read bytes; used to instantiate theorems
at concrete inputs. -/
def busConst (ret : Int) (data : List Nat) : Bus := fun _ => (ret, data)

set_option maxRecDepth 4000 in
/-- Any byte value printed through %02x occupies exactly two characters. -/
theorem hex2_length_two : ∀ n ≤ 255, (hex2 n).length = 2 := by decide

example :
    (runMain (fun _ => (2, [0x12])) 3 0 0x38 0xa6 (-1) (-1) 0).logs =
      [.printed "12"] := by decide

example :
    (runMain (fun _ => (1, [])) 3 0 0x38 (-1) 0x86 0x08 0).transactions =
      [[⟨0x38, 0, 2, [0x86, 0x08]⟩]] := by decide

example :
    (runMain (fun _ => (1, [])) 3 0 0x38 (-1) 0x86 0x08 0).logs =
      [.printed "86 = 08"] := by decide

example :
    (runMain (fun _ => (1, [])) 3 0 0x38 0xa6 0x86 0x08 0).transactions =
      [] := by decide

/-- C1: for every register address in [0,255], the read operation issues
exactly one combined bus transaction, a 1-byte write message with payload
exactly [address] immediately followed by a read message of exactly 1
byte, submitted together in a single atomic multi-message ioctl, and the
byte the bus delivers lands in the read buffer unmodified. -/
theorem C1_read_register (bus : Bus) (tsaddr address rbuf0 : Nat)
    (ret : Int) (b : Nat) (hA : address ≤ 255)
    (hbus : bus [⟨tsaddr, 0, 1, [address]⟩, ⟨tsaddr, I2C_M_RD, 1, []⟩] =
      (ret, [b])) :
    (ft5x06_i2c_read bus tsaddr [address] 1 [rbuf0] 1).trace =
      [[⟨tsaddr, 0, 1, [address]⟩, ⟨tsaddr, I2C_M_RD, 1, []⟩]] ∧
    (ft5x06_i2c_read bus tsaddr [address] 1 [rbuf0] 1).rdbuf = [b] := by
  simp [ft5x06_i2c_read, hbus, listOverwrite]

/-- C1 witness: a concrete bus returning byte 0x12 for register 0xa6. -/
theorem C1_read_register_witness :
    (166 : Nat) ≤ 255 ∧
    ((ft5x06_i2c_read (busConst 2 [18]) 56 [166] 1 [7] 1).trace =
      [[⟨56, 0, 1, [166]⟩, ⟨56, I2C_M_RD, 1, []⟩]] ∧
     (ft5x06_i2c_read (busConst 2 [18]) 56 [166] 1 [7] 1).rdbuf = [18]) :=
  ⟨by decide, C1_read_register (busConst 2 [18]) 56 166 7 2 18 (by decide) rfl⟩

/-- C2: for every register address and value in [0,255], the write
operation issues exactly one transaction made of a single write message
whose payload is exactly the two bytes [address, value] in that order,
with no read message. -/
theorem C2_write_register (bus : Bus) (tsaddr address value : Nat)
    (hA : address ≤ 255) (hV : value ≤ 255) :
    (ft5x06_write_reg bus tsaddr address value).trace =
      [[⟨tsaddr, 0, 2, [address, value]⟩]] := by
  rfl

/-- C2 witness: writing value 0x08 to register 0x86. -/
theorem C2_write_register_witness :
    (134 : Nat) ≤ 255 ∧ (8 : Nat) ≤ 255 ∧
    (ft5x06_write_reg (busConst 1 []) 56 134 8).trace =
      [[⟨56, 0, 2, [134, 8]⟩]] :=
  ⟨by decide, by decide,
    C2_write_register (busConst 1 []) 56 134 8 (by decide) (by decide)⟩

/-- C7: the process exit code is 0 exactly when device open and address
bind both succeed, whatever happened afterwards; it is nonzero exactly
when open or bind fails. -/
theorem C7_exit_code_iff (bus : Bus) (openRet bindRet : Int) (tsaddr : Nat)
    (readaddr writeaddr writevalue : Int) (rbuf0 : Nat) :
    (runMain bus openRet bindRet tsaddr readaddr writeaddr writevalue
      rbuf0).exitCode = 0 ↔ 0 ≤ openRet ∧ bindRet = 0 := by
  unfold runMain
  split_ifs with h1 h2 <;> simp_all <;> omega

/-- C8: every invocation submits at most one bus transaction, on every
input and whatever the bus answers. -/
theorem C8_at_most_one_transaction (bus : Bus) (openRet bindRet : Int)
    (tsaddr : Nat) (readaddr writeaddr writevalue : Int) (rbuf0 : Nat) :
    (runMain bus openRet bindRet tsaddr readaddr writeaddr writevalue
      rbuf0).transactions.length ≤ 1 := by
  unfold runMain
  split_ifs <;> simp [ft5x06_i2c_read, ft5x06_write_reg, ft5x06_i2c_write]

/-- C3 counterexample: with the device opened successfully (fd 3) and the
I2C_SLAVE_FORCE bind failing, main returns -1 directly (src line 217)
without reaching the close at the end label, so close runs zero times on
that exit path, refuting that release happens on every exit path
including bind failure. -/
theorem C3_bind_failure_skips_close :
    (0 : Int) ≤ 3 ∧
    (runMain (busConst 0 []) 3 (-1) 56 (-1) (-1) (-1) 0).closeCount = 0 := by
  decide

/-- C3 amended: whenever the device was opened and the bind succeeded,
close runs exactly once on every exit path (success, transaction error,
validation rejection); on bind failure close is never reached. -/
theorem C3_close_once_after_bind (bus : Bus) (openRet bindRet : Int)
    (tsaddr : Nat) (ra wa wv : Int) (rbuf0 : Nat)
    (hOpen : 0 ≤ openRet) (hBind : bindRet = 0) :
    (runMain bus openRet bindRet tsaddr ra wa wv rbuf0).closeCount = 1 := by
  unfold runMain
  split_ifs <;> first | rfl | omega

/-- C3 amended witness: a run that performs a read closes exactly once. -/
theorem C3_close_once_after_bind_witness :
    (0 : Int) ≤ 3 ∧ (0 : Int) = 0 ∧
    (runMain (busConst 2 [18]) 3 0 56 166 (-1) (-1) 0).closeCount = 1 :=
  ⟨by decide, rfl,
    C3_close_once_after_bind (busConst 2 [18]) 3 0 56 166 (-1) (-1) 0
      (by decide) rfl⟩

/-- C4: the code rejects register address 0 and value 0.  With open and
bind succeeding, writeaddr 0 and writevalue 8 (the command line -w 0x00
-v 0x08) hit the writeaddr <= 0 branch at src line 223: the run performs
no transaction and logs the address-missing message even though an
address was supplied; likewise writeaddr 0x86 with writevalue 0 hits the
writevalue <= 0 branch at src line 226.  The spec says any value 0-255
is accepted and forwarded; the code, whose sentinel for an absent option
is -1, tests with <= 0 instead of < 0. -/
theorem C4_zero_write_rejected :
    (runMain (busConst 1 []) 3 0 56 (-1) 0 8 0).transactions = [] ∧
    (runMain (busConst 1 []) 3 0 56 (-1) 0 8 0).logs = [.noWriteAddress] ∧
    (runMain (busConst 1 []) 3 0 56 (-1) 134 0 0).transactions = [] ∧
    (runMain (busConst 1 []) 3 0 56 (-1) 134 0 0).logs = [.noWriteValue] := by
  decide

/-- C5: supplying both a read and a write address, or a write address
without a value, or a value without a write address, is rejected with one
logged message, zero transactions are submitted, and control falls
through to the handle-release path (close runs once). -/
theorem C5_validation_rejects (bus : Bus) (openRet bindRet : Int)
    (tsaddr : Nat) (ra wa wv : Int) (rbuf0 : Nat)
    (hOpen : 0 ≤ openRet) (hBind : bindRet = 0)
    (h : (0 ≤ ra ∧ 0 ≤ wa) ∨ (0 ≤ wa ∧ wv < 0) ∨ (0 ≤ wv ∧ wa < 0)) :
    (runMain bus openRet bindRet tsaddr ra wa wv rbuf0).transactions = [] ∧
    ((runMain bus openRet bindRet tsaddr ra wa wv rbuf0).logs =
        [.bothReadWrite] ∨
     (runMain bus openRet bindRet tsaddr ra wa wv rbuf0).logs =
        [.noWriteAddress] ∨
     (runMain bus openRet bindRet tsaddr ra wa wv rbuf0).logs =
        [.noWriteValue]) ∧
    (runMain bus openRet bindRet tsaddr ra wa wv rbuf0).closeCount = 1 := by
  unfold runMain
  split_ifs with h1 h2 h3 h4 h5 h6 h7
  · omega
  · omega
  · exact ⟨rfl, Or.inl rfl, rfl⟩
  · exact ⟨rfl, Or.inr (Or.inl rfl), rfl⟩
  · exact ⟨rfl, Or.inr (Or.inr rfl), rfl⟩
  · omega
  · omega
  · omega

/-- C5 witness: the spec scenario -r 0xa6 -w 0x86 -v 0x08 is rejected
with zero transactions and one close. -/
theorem C5_validation_rejects_witness :
    (0 : Int) ≤ 3 ∧ (0 : Int) = 0 ∧
    ((0 : Int) ≤ 166 ∧ (0 : Int) ≤ 134) ∧
    ((runMain (busConst 1 []) 3 0 56 166 134 8 0).transactions = [] ∧
     ((runMain (busConst 1 []) 3 0 56 166 134 8 0).logs =
        [.bothReadWrite] ∨
      (runMain (busConst 1 []) 3 0 56 166 134 8 0).logs =
        [.noWriteAddress] ∨
      (runMain (busConst 1 []) 3 0 56 166 134 8 0).logs =
        [.noWriteValue]) ∧
     (runMain (busConst 1 []) 3 0 56 166 134 8 0).closeCount = 1) :=
  ⟨by decide, rfl, by decide,
    C5_validation_rejects (busConst 1 []) 3 0 56 166 134 8 0
      (by decide) rfl (Or.inl (by decide))⟩

/-- C6: when the bus reports a negative result for the one transaction an
operation-performing invocation submits, the failure is non-fatal: the
numeric code is logged exactly once at the point of detection, exactly
one transaction was submitted (no retry), close still runs exactly once,
and the process exits 0. -/
theorem C6_transaction_error_nonfatal (bus : Bus) (openRet bindRet : Int)
    (tsaddr : Nat) (ra wa wv : Int) (rbuf0 : Nat) (ret : Int)
    (hOpen : 0 ≤ openRet) (hBind : bindRet = 0)
    (hop : (0 ≤ ra ∧ wa < 0 ∧ wv < 0) ∨ (ra < 0 ∧ 1 ≤ wa ∧ 1 ≤ wv))
    (hbus : ∀ t, (bus t).1 = ret) (hret : ret < 0) :
    (runMain bus openRet bindRet tsaddr ra wa wv rbuf0).errs = [ret] ∧
    (runMain bus openRet bindRet tsaddr ra wa wv
      rbuf0).transactions.length = 1 ∧
    (runMain bus openRet bindRet tsaddr ra wa wv rbuf0).closeCount = 1 ∧
    (runMain bus openRet bindRet tsaddr ra wa wv rbuf0).exitCode = 0 := by
  unfold runMain
  split_ifs with h1 h2 h3 h4 h5 h6 h7
  · omega
  · omega
  · omega
  · omega
  · omega
  · simp [ft5x06_i2c_read, hbus, hret]
  · simp [ft5x06_write_reg, ft5x06_i2c_write, hbus, hret]
  · omega

/-- C6 witness: a read of register 0xa6 whose transaction fails with -5
logs the code once, submits one transaction, closes once and exits 0. -/
theorem C6_transaction_error_nonfatal_witness :
    (runMain (busConst (-5) []) 3 0 56 166 (-1) (-1) 0).errs = [-5] ∧
    (runMain (busConst (-5) []) 3 0 56 166 (-1) (-1)
      0).transactions.length = 1 ∧
    (runMain (busConst (-5) []) 3 0 56 166 (-1) (-1) 0).closeCount = 1 ∧
    (runMain (busConst (-5) []) 3 0 56 166 (-1) (-1) 0).exitCode = 0 :=
  C6_transaction_error_nonfatal (busConst (-5) []) 3 0 56 166 (-1) (-1) 0
    (-5) (by decide) rfl (Or.inl (by decide)) (fun _ => rfl) (by decide)

/-- C9: with open and bind succeeding, a successful read prints the byte
the bus returned in two-digit hex, and a performed write prints the line
address = value with both fields in two-digit hex. -/
theorem C9_success_output (bus : Bus) (openRet bindRet : Int)
    (tsaddr : Nat) (ra wa wv : Int) (rbuf0 b : Nat) (ret : Int)
    (hOpen : 0 ≤ openRet) (hBind : bindRet = 0) :
    (0 ≤ ra → wa < 0 → wv < 0 →
      bus [⟨tsaddr, 0, 1, [uint8_ofInt ra]⟩, ⟨tsaddr, I2C_M_RD, 1, []⟩] =
        (ret, [b]) →
      b ≤ 255 →
      (runMain bus openRet bindRet tsaddr ra wa wv rbuf0).logs =
        [.printed (hex2 b)] ∧ (hex2 b).length = 2) ∧
    (ra < 0 → 1 ≤ wa → wa ≤ 255 → 1 ≤ wv → wv ≤ 255 →
      (runMain bus openRet bindRet tsaddr ra wa wv rbuf0).logs =
        [.printed (hex2 wa.toNat ++ " = " ++ hex2 wv.toNat)] ∧
      (hex2 wa.toNat).length = 2 ∧ (hex2 wv.toNat).length = 2) := by
  constructor
  · intro hra hwa hwv hbus hb
    unfold runMain
    split_ifs with h1 h2 h3 h4 h5
    · omega
    · omega
    · omega
    · omega
    · omega
    · refine ⟨?_, hex2_length_two b hb⟩
      simp [ft5x06_i2c_read, hbus, listOverwrite]
  · intro hra hwa1 hwa2 hwv1 hwv2
    unfold runMain
    split_ifs with h1 h2 h3 h4 h5 h6 h7
    · omega
    · omega
    · omega
    · omega
    · omega
    · omega
    · exact ⟨rfl, hex2_length_two wa.toNat (by omega),
        hex2_length_two wv.toNat (by omega)⟩
    · omega

/-- C9 witness: a read returning byte 0x12 prints the two characters 12,
and the write -w 0x86 -v 0x08 prints 86 = 08. -/
theorem C9_success_output_witness :
    ((runMain (busConst 2 [18]) 3 0 56 166 (-1) (-1) 0).logs =
        [.printed (hex2 18)] ∧ (hex2 18).length = 2) ∧
    ((runMain (busConst 1 []) 3 0 56 (-1) 134 8 0).logs =
        [.printed (hex2 (134 : Int).toNat ++ " = " ++
          hex2 (8 : Int).toNat)] ∧
     (hex2 (134 : Int).toNat).length = 2 ∧
     (hex2 (8 : Int).toNat).length = 2) :=
  ⟨(C9_success_output (busConst 2 [18]) 3 0 56 166 (-1) (-1) 0 18 2
      (by decide) rfl).1 (by decide) (by decide) (by decide) rfl (by decide),
   (C9_success_output (busConst 1 []) 3 0 56 (-1) 134 8 0 0 0
      (by decide) rfl).2 (by decide) (by decide) (by decide) (by decide)
      (by decide)⟩

/-- C10: when the parsed write address or value exceeds 255, the bytes
submitted on the bus are the parsed integers reduced modulo 256 (the
int-to-uint8_t conversion at the ft5x06_write_reg call), while the
printed confirmation line shows the untruncated parsed integers through
%02x, so the printed fields disagree with the bytes actually sent. -/
theorem C10_truncated_payload_untruncated_print (bus : Bus)
    (openRet bindRet : Int) (tsaddr : Nat) (ra wa wv : Int) (rbuf0 : Nat)
    (hOpen : 0 ≤ openRet) (hBind : bindRet = 0)
    (hra : ra < 0) (hwa : 1 ≤ wa) (hwv : 1 ≤ wv)
    (hbig : 255 < wa ∨ 255 < wv) :
    (runMain bus openRet bindRet tsaddr ra wa wv rbuf0).transactions =
      [[⟨tsaddr, 0, 2, [wa.toNat % 256, wv.toNat % 256]⟩]] ∧
    (runMain bus openRet bindRet tsaddr ra wa wv rbuf0).logs =
      [.printed (hex2 wa.toNat ++ " = " ++ hex2 wv.toNat)] ∧
    (255 < wa → wa.toNat % 256 ≠ wa.toNat) ∧
    (255 < wv → wv.toNat % 256 ≠ wv.toNat) := by
  have e1 : uint8_ofInt wa = wa.toNat % 256 := by unfold uint8_ofInt; omega
  have e2 : uint8_ofInt wv = wv.toNat % 256 := by unfold uint8_ofInt; omega
  unfold runMain
  split_ifs with h1 h2 h3 h4 h5 h6 h7
  · exact absurd h1 (by omega)
  · exact absurd hBind h2
  · exact absurd h3 (by omega)
  · exact absurd h4 (by omega)
  · exact absurd h5 (by omega)
  · exact absurd h6 (by omega)
  · refine ⟨?_, rfl, fun h => by omega, fun h => by omega⟩
    simp [ft5x06_write_reg, ft5x06_i2c_write, e1, e2]
  · exact absurd hwa (by omega)

/-- C10 witness: -w 0x186 -v 0x108 sends the bytes [0x86, 0x08] but
prints 186 = 108. -/
theorem C10_truncated_payload_untruncated_print_witness :
    (runMain (busConst 1 []) 3 0 56 (-1) 390 264 0).transactions =
      [[⟨56, 0, 2, [(390 : Int).toNat % 256, (264 : Int).toNat % 256]⟩]] ∧
    (runMain (busConst 1 []) 3 0 56 (-1) 390 264 0).logs =
      [.printed (hex2 (390 : Int).toNat ++ " = " ++
        hex2 (264 : Int).toNat)] ∧
    (255 < (390 : Int) → (390 : Int).toNat % 256 ≠ (390 : Int).toNat) ∧
    (255 < (264 : Int) → (264 : Int).toNat % 256 ≠ (264 : Int).toNat) :=
  C10_truncated_payload_untruncated_print (busConst 1 []) 3 0 56 (-1) 390
    264 0 (by decide) rfl (by decide) (by decide) (by decide)
    (Or.inl (by decide))
